import Mathlib

/-
  Verification of the strategy / risk-control engine of a paper-trading bot
  (single-file Python source, `main.py`).  Decimal arithmetic is embedded as
  exact rationals; `Decimal.quantize` (default ROUND_HALF_EVEN) is embedded
  explicitly where the source calls it.
-/

set_option allowUnsafeReducibility true in
attribute [semireducible] Rat.add Rat.mul Rat.inv Rat.sub Rat.ofScientific

namespace CryptoBot

/-! ## Configuration constants (from the CONFIG section of the source) -/

def TAKE_PROFIT_PCT : ℚ := 10 / 1000

def STOP_LOSS_PCT : ℚ := 15 / 1000

def POSITION_SIZE_FRACTION : ℚ := 30 / 100

def MIN_TREND_STRENGTH : ℚ := 2 / 1000

def RSI_BUY_MIN : ℚ := 40

def RSI_BUY_MAX : ℚ := 65

def MIN_VOLATILITY : ℚ := 2 / 1000

def MAX_VOLATILITY : ℚ := 30 / 1000

def MAX_DAILY_DRAWDOWN : ℚ := 5 / 100

def MAX_LOSING_STREAK : ℕ := 3

/-! ## Decimal.quantize with the default ROUND_HALF_EVEN rounding -/

/-- Round a rational to the nearest integer, ties to the even integer
(the default rounding of Python `Decimal.quantize`). -/
def roundHalfEvenInt (q : ℚ) : ℤ :=
  let f : ℤ := ⌊q⌋
  let r : ℚ := q - f
  if r < 1 / 2 then f
  else if 1 / 2 < r then f + 1
  else if f % 2 = 0 then f else f + 1

/-- `x.quantize(Decimal("0.01"))` is `quantize 2 x`;
`x.quantize(Decimal("0.00000001"))` is `quantize 8 x`. -/
def quantize (scale : ℕ) (q : ℚ) : ℚ :=
  (roundHalfEvenInt (q * 10 ^ scale) : ℚ) / 10 ^ scale

/-! ## Indicators -/

/-- Python slice `values[-n:]` for `n ≥ 1`: the last `n` elements
(the whole list when it is shorter than `n`). -/
def lastN (n : ℕ) (xs : List ℚ) : List ℚ := xs.drop (xs.length - n)

/-- `sma(values, period)` from the source. -/
def sma (values : List ℚ) (period : ℕ) : Option ℚ :=
  if values.length < period then none
  else some ((lastN period values).sum / (period : ℚ))

/-- `rsi(values, period)` from the source.  The loop
`for i in range(1, period + 1)` reads `values[-i] - values[-i-1]`;
positive differences go to `gains`, all others (including zero) are
appended to `losses` as `-diff`. -/
def rsi (values : List ℚ) (period : ℕ) : Option ℚ :=
  if values.length ≤ period then none
  else
    let n := values.length
    let diffs := (List.range period).map
      (fun j => values.getD (n - (j + 1)) 0 - values.getD (n - (j + 2)) 0)
    let gains := diffs.filter (fun d => 0 < d)
    let losses := (diffs.filter (fun d => ¬ 0 < d)).map (fun d => -d)
    if gains = [] ∧ losses = [] then some 50
    else
      let avg_gain : ℚ := if gains = [] then 0 else gains.sum / (period : ℚ)
      let avg_loss : ℚ := if losses = [] then 0 else losses.sum / (period : ℚ)
      if avg_loss = 0 then some 100
      else
        let rs := avg_gain / avg_loss
        some (100 - 100 / (1 + rs))

/-- `avg_abs_return(values)` from the source: the loop over
`i in range(1, len(values))` skips pairs whose previous close is `≤ 0`,
but the final division is by `len(values) - 1` in every case. -/
def avg_abs_return (values : List ℚ) : ℚ :=
  if values.length < 2 then 0
  else
    let total := ((List.range (values.length - 1)).map
      (fun j =>
        let prev := values.getD j 0
        let curr := values.getD (j + 1) 0
        if prev ≤ 0 then 0 else |(curr - prev) / prev|)).sum
    total / ((values.length : ℚ) - 1)

/-- Modelled from the spec (for comparison with `avg_abs_return`): mean of
`|close[i] - close[i-1]| / close[i-1]` over exactly the valid consecutive
pairs — pairs whose prior close is zero or non-positive are excluded from
both the sum and the divisor — and `none` ("insufficient data") when no
valid pair exists. -/
def avgAbsReturnSpec (values : List ℚ) : Option ℚ :=
  let pairs := values.zip values.tail
  let valid := pairs.filter (fun pq => 0 < pq.1)
  if valid = [] then none
  else some ((valid.map (fun pq => |(pq.2 - pq.1) / pq.1|)).sum / (valid.length : ℚ))

/-! ## Scoring -/

/-- The score combination formula of `score_market` (its final lines):
`trend_strength * 100 + rsi_score + vol_score`. -/
def score_formula (trend_strength r vol : ℚ) : ℚ :=
  let rsi_mid := (RSI_BUY_MIN + RSI_BUY_MAX) / 2
  let rsi_score := 1 - |r - rsi_mid| / 50
  let vol_score := 1 - |vol - (MIN_VOLATILITY + MAX_VOLATILITY) / 2|
  trend_strength * 100 + rsi_score + vol_score

/-- `score_market` from the source, as a function of the fetched close series
(`get_recent_candles` either fails — modelled by the empty list, which the
`if not closes` guard also rejects — or returns the closes). Only the score
component of the returned tuple is modelled; the price and closes components
are just echoes of the input. -/
def score_closes (closes : List ℚ) : ℚ :=
  if closes = [] then -999
  else
    let short_ma := sma closes 9
    let long_ma := sma closes 21
    let current_rsi := rsi closes 14
    let vol := avg_abs_return (lastN 40 closes)
    match short_ma, long_ma, current_rsi with
    | some sm, some lm, some r =>
      let trend_strength := (sm - lm) / lm
      if trend_strength < MIN_TREND_STRENGTH then -999
      else if ¬ (RSI_BUY_MIN ≤ r ∧ r ≤ RSI_BUY_MAX) then -999
      else if ¬ (MIN_VOLATILITY ≤ vol ∧ vol ≤ MAX_VOLATILITY) then -999
      else score_formula trend_strength r vol
    | _, _, _ => -999

/-- The acceptance decomposition of `score_closes`: `some (trend, rsi, vol)`
when every filter passes (the series is accepted), `none` when the series is
rejected with the `-999` sentinel. -/
def score_filters (closes : List ℚ) : Option (ℚ × ℚ × ℚ) :=
  if closes = [] then none
  else
    let vol := avg_abs_return (lastN 40 closes)
    match sma closes 9, sma closes 21, rsi closes 14 with
    | some sm, some lm, some r =>
      let trend_strength := (sm - lm) / lm
      if trend_strength < MIN_TREND_STRENGTH then none
      else if ¬ (RSI_BUY_MIN ≤ r ∧ r ≤ RSI_BUY_MAX) then none
      else if ¬ (MIN_VOLATILITY ≤ vol ∧ vol ≤ MAX_VOLATILITY) then none
      else some (trend_strength, r, vol)
    | _, _, _ => none

/-! ## Global state and the risk / trading transitions -/

/-- The mutable globals of the source. `today_date` is an abstract day
index (dates are only compared for equality). -/
structure BotState where
  usd_balance : ℚ
  coin_balance : ℚ
  current_market : Option String
  entry_price : Option ℚ
  trade_count : ℕ
  losing_streak : ℕ
  equity_peak_today : ℚ
  today_date : ℤ
  trading_paused_for_today : Bool
deriving DecidableEq, Repr

/-- Python `last_price or Decimal("0")`: `None` and `Decimal("0")` are both
falsy, so the value is `0` in either case. -/
def orZero (p : Option ℚ) : ℚ :=
  match p with
  | none => 0
  | some x => x

/-- `current_equity(last_price)` from the source. -/
def current_equity (s : BotState) (last_price : Option ℚ) : ℚ :=
  match last_price with
  | none => s.usd_balance
  | some p => if s.coin_balance = 0 then s.usd_balance else s.usd_balance + s.coin_balance * p

/-- `update_daily_state(last_price)` from the source, with the observed
current date `d` (the source reads `datetime.now(timezone.utc).date()`)
passed explicitly. -/
def update_daily_state (s : BotState) (d : ℤ) (last_price : Option ℚ) : BotState :=
  let s1 := if d ≠ s.today_date then
      { s with today_date := d,
               equity_peak_today := current_equity s (some (orZero last_price)),
               trading_paused_for_today := false }
    else s
  let equity := current_equity s1 (some (orZero last_price))
  let s2 := if s1.equity_peak_today < equity then { s1 with equity_peak_today := equity } else s1
  if s2.equity_peak_today ≤ 0 then s2
  else
    let drawdown := (s2.equity_peak_today - equity) / s2.equity_peak_today
    if MAX_DAILY_DRAWDOWN ≤ drawdown ∧ s2.trading_paused_for_today = false then
      { s2 with trading_paused_for_today := true }
    else s2

/-- `enter_position(market, price)` from the source. -/
def enter_position (s : BotState) (market : String) (price : ℚ) : BotState :=
  if s.usd_balance ≤ 0 then s
  else
    let usd_to_spend := quantize 2 (s.usd_balance * POSITION_SIZE_FRACTION)
    if usd_to_spend < 10 then s
    else
      let coins := quantize 8 (usd_to_spend / price)
      if coins ≤ 0 then s
      else
        { s with usd_balance := s.usd_balance - usd_to_spend,
                 coin_balance := s.coin_balance + coins,
                 current_market := some market,
                 entry_price := some price,
                 trade_count := s.trade_count + 1 }

/-- `exit_position(reason, price)` from the source.  The `reason` string only
feeds the log; the state transition does not depend on it. -/
def exit_position (s : BotState) (reason : String) (price : ℚ) : BotState :=
  match s.current_market, s.entry_price with
  | some _, some ep =>
    if s.coin_balance ≤ 0 then s
    else
      let coins := s.coin_balance
      let proceeds := quantize 2 (coins * price)
      let pnl := (price - ep) / ep
      { s with usd_balance := s.usd_balance + proceeds,
               coin_balance := 0,
               losing_streak := if pnl < 0 then s.losing_streak + 1 else 0,
               current_market := none,
               entry_price := none }
  | _, _ => s

/-! ## The main loop (one cycle) -/

/-- The exit decision taken for a held position by the main loop. -/
inductive ExitDecision where
  | hold
  | takeProfit
  | stopLoss
deriving DecidableEq, Repr

/-- The take-profit / stop-loss decision of `main_loop` for a held position:
`none` models an unavailable latest price. -/
def check_position (ep : ℚ) (price : Option ℚ) : ExitDecision :=
  match price with
  | none => .hold
  | some p =>
    let pnl := (p - ep) / ep
    if TAKE_PROFIT_PCT ≤ pnl then .takeProfit
    else if pnl ≤ -STOP_LOSS_PCT then .stopLoss
    else .hold

/-- Python truthiness of `current_market` (a string or `None`). -/
def truthyMarket (m : Option String) : Bool :=
  match m with
  | none => false
  | some v => v ≠ ""

/-- Python truthiness of `entry_price` (a decimal or `None`). -/
def truthyPrice (p : Option ℚ) : Bool :=
  match p with
  | none => false
  | some x => x ≠ 0

/-- `if current_market and entry_price:` — the in-position test of the main
loop, which is also the at-capacity test (this program holds at most one
position). -/
def positionHeld (s : BotState) : Bool :=
  truthyMarket s.current_market && truthyPrice s.entry_price

def reasonTP : String := "TAKE_PROFIT"

def reasonSL : String := "STOP_LOSS"

/-- The external observations one loop cycle makes: the dates read by the two
`update_daily_state` calls, the result of `get_latest_price(current_market)`,
and the `(score, market, price)` triple of `choose_best_market()`. -/
structure Env where
  today1 : ℤ
  today2 : ℤ
  latest_price : Option ℚ
  best_score : ℚ
  best_market : Option String
  best_price : Option ℚ

/-- One iteration of the `while True` body of `main_loop` (state plus the
local `last_price_for_equity`), with network reads supplied by `env`. -/
def cycleStep (s : BotState) (lp : ℚ) (env : Env) : BotState × ℚ :=
  let s0 := update_daily_state s env.today1 (some lp)
  if positionHeld s0 then
    match env.latest_price with
    | none => (s0, lp)
    | some p =>
      match check_position (s0.entry_price.getD 0) (some p) with
      | .takeProfit => (exit_position s0 reasonTP p, p)
      | .stopLoss => (exit_position s0 reasonSL p, p)
      | .hold => (s0, p)
  else
    let s1 := update_daily_state s0 env.today2 (some lp)
    if s1.trading_paused_for_today then (s1, lp)
    else if MAX_LOSING_STREAK ≤ s1.losing_streak then (s1, lp)
    else
      match env.best_market, env.best_price with
      | some m, some p =>
        if env.best_score < 0 then (s1, lp)
        else (enter_position s1 m p, p)
      | _, _ => (s1, lp)

/-! ## Sequences of trading actions (for the cash invariant) -/

/-- A trading action: the two operations that change `usd_balance`. -/
inductive TradeOp where
  | enter (market : String) (price : ℚ)
  | close (reason : String) (price : ℚ)

def applyOp (s : BotState) : TradeOp → BotState
  | .enter m p => enter_position s m p
  | .close r p => exit_position s r p

/-- Exits at a non-negative price (the data provider only produces
non-negative prices). -/
def opPriceOk : TradeOp → Prop
  | .enter _ _ => True
  | .close _ p => 0 ≤ p

instance : DecidablePred opPriceOk := by
  intro op
  cases op <;> simp only [opPriceOk] <;> infer_instance

/-! ## Concrete states and inputs used by witnesses and counterexamples -/

def mBTC : String := "BTC-USD"

/-- A flat state holding the starting balance of 100 USD. -/
def startState : BotState :=
  { usd_balance := 100, coin_balance := 0, current_market := none,
    entry_price := none, trade_count := 0, losing_streak := 0,
    equity_peak_today := 100, today_date := 0,
    trading_paused_for_today := false }

/-- A state with a losing streak of 2 on day 0 (for the rollover claims). -/
def rollState : BotState :=
  { usd_balance := 100, coin_balance := 0, current_market := none,
    entry_price := none, trade_count := 0, losing_streak := 2,
    equity_peak_today := 100, today_date := 0,
    trading_paused_for_today := true }

/-- Peak equity 1000 and current equity 940 (drawdown 6%). -/
def ddState940 : BotState :=
  { usd_balance := 940, coin_balance := 0, current_market := none,
    entry_price := none, trade_count := 0, losing_streak := 0,
    equity_peak_today := 1000, today_date := 0,
    trading_paused_for_today := false }

/-- Peak equity 1000 and current equity 960 (drawdown 4%). -/
def ddState960 : BotState :=
  { usd_balance := 960, coin_balance := 0, current_market := none,
    entry_price := none, trade_count := 0, losing_streak := 0,
    equity_peak_today := 1000, today_date := 0,
    trading_paused_for_today := false }

/-- An open position: 0.001 coins bought at entry price 100. -/
def posState : BotState :=
  { usd_balance := 0, coin_balance := 1 / 1000, current_market := some mBTC,
    entry_price := some 100, trade_count := 1, losing_streak := 0,
    equity_peak_today := 100, today_date := 0,
    trading_paused_for_today := false }

/-- A flat paused state (for the entry-permission claim). -/
def pausedState : BotState :=
  { usd_balance := 100, coin_balance := 0, current_market := none,
    entry_price := none, trade_count := 5, losing_streak := 0,
    equity_peak_today := 1000, today_date := 0,
    trading_paused_for_today := true }

/-- An environment offering an attractive candidate market. -/
def richEnv : Env :=
  { today1 := 0, today2 := 0, latest_price := some 100,
    best_score := 5, best_market := some mBTC, best_price := some 50000 }

/-- An environment in which the latest-price fetch fails. -/
def noPriceEnv : Env :=
  { today1 := 0, today2 := 0, latest_price := none,
    best_score := 5, best_market := some mBTC, best_price := some 50000 }

/-- An accepted 22-candle series: flat at 100, a step up to 110, and a
single up-down wiggle of 1.1 near the end of the RSI window. -/
def cs1ex : List ℚ :=
  List.replicate 7 100 ++ List.replicate 13 110 ++ [1111 / 10, 110]

/-- An accepted series with the same RSI (50) and the same volatility as
`cs1ex` but with the wiggle earlier, giving a strictly smaller trend. -/
def cs2ex : List ℚ :=
  List.replicate 7 100 ++ [110, 110, 110, 1111 / 10] ++ List.replicate 11 110

/-! ## Helper lemmas -/

theorem floor_le_roundHalfEvenInt (q : ℚ) : ⌊q⌋ ≤ roundHalfEvenInt q := by
  unfold roundHalfEvenInt
  dsimp only
  split_ifs <;> omega

theorem roundHalfEvenInt_le (q : ℚ) : (roundHalfEvenInt q : ℚ) ≤ q + 1 / 2 := by
  have h1 : (⌊q⌋ : ℚ) ≤ q := Int.floor_le q
  unfold roundHalfEvenInt
  dsimp only
  split_ifs with ha hb hc <;> push_cast <;> linarith

theorem quantize_nonneg (n : ℕ) (x : ℚ) (hx : 0 ≤ x) : 0 ≤ quantize n x := by
  unfold quantize
  have h1 : (0 : ℤ) ≤ ⌊x * 10 ^ n⌋ := by
    apply Int.floor_nonneg.2
    positivity
  have h2 := floor_le_roundHalfEvenInt (x * 10 ^ n)
  have h3 : (0 : ℚ) ≤ (roundHalfEvenInt (x * 10 ^ n) : ℚ) := by
    exact_mod_cast le_trans h1 h2
  positivity

theorem quantize_le (n : ℕ) (x : ℚ) : quantize n x ≤ x + 1 / (2 * 10 ^ n) := by
  unfold quantize
  have h1 := roundHalfEvenInt_le (x * 10 ^ n)
  have h2 : (0 : ℚ) < 10 ^ n := by positivity
  rw [div_le_iff₀ h2]
  have h3 : (x + 1 / (2 * 10 ^ n)) * 10 ^ n = x * 10 ^ n + 1 / 2 := by
    field_simp
    ring
  rw [h3]
  linarith

theorem update_daily_state_preserves (s : BotState) (d : ℤ) (lp : Option ℚ) :
    (update_daily_state s d lp).usd_balance = s.usd_balance ∧
    (update_daily_state s d lp).coin_balance = s.coin_balance ∧
    (update_daily_state s d lp).current_market = s.current_market ∧
    (update_daily_state s d lp).entry_price = s.entry_price ∧
    (update_daily_state s d lp).trade_count = s.trade_count ∧
    (update_daily_state s d lp).losing_streak = s.losing_streak := by
  unfold update_daily_state
  dsimp only
  split_ifs <;> simp_all

theorem exit_position_preserves (s : BotState) (r : String) (p : ℚ) :
    (exit_position s r p).trade_count = s.trade_count ∧
    (exit_position s r p).trading_paused_for_today = s.trading_paused_for_today ∧
    (exit_position s r p).today_date = s.today_date := by
  unfold exit_position
  rcases s.current_market with _ | m <;> rcases s.entry_price with _ | ep <;>
    dsimp only <;> try exact ⟨rfl, rfl, rfl⟩
  split_ifs <;> exact ⟨rfl, rfl, rfl⟩

theorem enter_position_preserves (s : BotState) (m : String) (p : ℚ) :
    (enter_position s m p).losing_streak = s.losing_streak ∧
    (enter_position s m p).trading_paused_for_today = s.trading_paused_for_today ∧
    (enter_position s m p).today_date = s.today_date := by
  unfold enter_position
  dsimp only
  split_ifs <;> exact ⟨rfl, rfl, rfl⟩

theorem current_equity_mk (s : BotState) (d : ℤ) (e : ℚ) (b : Bool) (lp : Option ℚ) :
    current_equity { s with today_date := d, equity_peak_today := e,
                            trading_paused_for_today := b } lp
      = current_equity s lp := rfl

/-- The full effect of `update_daily_state` when the day rolls over: the peak
is reset to the current equity, the pause flag is cleared, the date is
updated, and nothing else changes (in particular the drawdown re-check
cannot fire, since the drawdown against the fresh peak is zero). -/
theorem day_rollover_state (s : BotState) (d : ℤ) (lp : Option ℚ)
    (h : d ≠ s.today_date) :
    update_daily_state s d lp
      = { s with today_date := d,
                 equity_peak_today := current_equity s (some (orZero lp)),
                 trading_paused_for_today := false } := by
  unfold update_daily_state
  dsimp only
  rw [if_pos h]
  simp only [current_equity_mk]
  rw [if_neg (lt_irrefl _)]
  split_ifs with h2 h3
  · rfl
  · exact absurd h3.1 (by simp [MAX_DAILY_DRAWDOWN])
  · rfl

/-! ## Claim theorems -/

/-- Claim C1: the spec says the relative-strength computation returns 50 when
all of the last `period` consecutive differences are zero.  The code has an
explicit flat-market branch meant to return 50, but zero differences are
appended to the losses list, so that branch is unreachable and a flat series
returns 100 instead: the code contradicts its own flat-market handling. -/
theorem rsi_flat_series_returns_100 :
    rsi (List.replicate 15 (1 : ℚ)) 14 = some 100 ∧
    rsi (List.replicate 15 (1 : ℚ)) 14 ≠ some 50 := by
  constructor
  · decide
  · decide

/-- Claim C2 (counterexample): a day rollover (observed date 1 differs from
the stored day 0) leaves the losing streak at its prior value 2; the claim
says it becomes 0. -/
theorem rollover_keeps_losing_streak_cex :
    (1 : ℤ) ≠ rollState.today_date ∧
    rollState.losing_streak = 2 ∧
    (update_daily_state rollState 1 (some 0)).losing_streak = 2 ∧
    (update_daily_state rollState 1 (some 0)).losing_streak ≠ 0 := by
  refine ⟨by decide, by decide, by decide, by decide⟩

/-- Claim C2 (amended): when the day-rollover transition fires, the risk
state afterwards has `equityPeakToday` equal to the equity at rollover time
(not the starting balance), `pausedForDrawdown` false, `currentDay` equal to
the observed date — and `losingStreak` unchanged (the code does not reset it
at rollover). -/
theorem day_rollover_resets (s : BotState) (d : ℤ) (lp : Option ℚ)
    (h : d ≠ s.today_date) :
    (update_daily_state s d lp).today_date = d ∧
    (update_daily_state s d lp).equity_peak_today
      = current_equity s (some (orZero lp)) ∧
    (update_daily_state s d lp).trading_paused_for_today = false ∧
    (update_daily_state s d lp).losing_streak = s.losing_streak := by
  rw [day_rollover_state s d lp h]
  exact ⟨rfl, rfl, rfl, rfl⟩

/-- Witness for the amended C2 at a concrete rollover. -/
theorem day_rollover_resets_witness :
    (update_daily_state rollState 1 (some 0)).today_date = 1 ∧
    (update_daily_state rollState 1 (some 0)).equity_peak_today
      = current_equity rollState (some (orZero (some 0))) ∧
    (update_daily_state rollState 1 (some 0)).trading_paused_for_today = false ∧
    (update_daily_state rollState 1 (some 0)).losing_streak
      = rollState.losing_streak :=
  day_rollover_resets rollState 1 (some 0) (by decide)

/-- Claim C3 (counterexample): exiting the position `posState` (0.001 coins,
entry price 100) at price 99.999 gives rounded proceeds 0.10, so the
claim's `realizedPnL = proceeds − amount × entryPrice` is exactly 0 and the
claim demands a streak reset — but the code uses the unrounded relative
move `(price − entry) / entry < 0` and increments the streak to 1. -/
theorem exit_streak_rounding_cex :
    quantize 2 (posState.coin_balance * (99999 / 1000))
        - posState.coin_balance * (posState.entry_price.getD 0) = 0 ∧
    (exit_position posState reasonSL (99999 / 1000)).losing_streak = 1 := by
  refine ⟨by decide, by decide⟩

/-- Claim C3 (amended): for every open position, the exit operation adds the
2-decimal-rounded proceeds to the cash balance, but updates the losing
streak by the sign of the unrounded relative move
`(exitPrice − entryPrice) / entryPrice`: it increments the streak when that
is negative and resets it to zero otherwise.  The rounding of the proceeds
does not enter the streak decision. -/
theorem exit_streak_unrounded_sign (s : BotState) (r : String) (p ep : ℚ)
    (hm : s.current_market.isSome) (he : s.entry_price = some ep)
    (hc : 0 < s.coin_balance) :
    (exit_position s r p).losing_streak
      = (if (p - ep) / ep < 0 then s.losing_streak + 1 else 0) ∧
    (exit_position s r p).usd_balance
      = s.usd_balance + quantize 2 (s.coin_balance * p) := by
  obtain ⟨m, hm'⟩ := Option.isSome_iff_exists.mp hm
  unfold exit_position
  rw [hm', he]
  dsimp only
  rw [if_neg (not_le.mpr hc)]
  exact ⟨rfl, rfl⟩

/-- Witness for the amended C3 at a concrete losing exit. -/
theorem exit_streak_unrounded_sign_witness :
    (exit_position posState reasonSL 99).losing_streak
      = (if ((99 : ℚ) - 100) / 100 < 0 then posState.losing_streak + 1 else 0) ∧
    (exit_position posState reasonSL 99).usd_balance
      = posState.usd_balance + quantize 2 (posState.coin_balance * 99) :=
  exit_streak_unrounded_sign posState reasonSL 99 100 (by decide) (by decide)
    (by decide)

theorem range_pair_sum (h : ℚ → ℚ → ℚ) (values : List ℚ) :
    ((List.range (values.length - 1)).map
        (fun j => h (values.getD j 0) (values.getD (j + 1) 0))).sum
      = ((values.zip values.tail).map (fun pq => h pq.1 pq.2)).sum := by
  induction values with
  | nil => simp
  | cons x xs ih =>
    cases xs with
    | nil => simp
    | cons y t =>
      have ih2 := ih
      simp only [List.length_cons, Nat.succ_sub_one] at ih2 ⊢
      rw [List.range_succ_eq_map]
      simp only [List.map_cons, List.sum_cons, List.map_map, List.zip_cons_cons,
        List.tail_cons]
      congr 1

/-- Claim C4 (counterexample): on the series `[-1, 2, 4]` the single valid
pair contributes `|4 − 2| / 2 = 1`, so the claim's mean over valid pairs is
1 (`avgAbsReturnSpec`, modelled from the spec's words), but the code divides
the sum by `len − 1 = 2` (counting the invalid pair too) and returns 1/2. -/
theorem avg_abs_return_divisor_cex :
    avg_abs_return [-1, 2, 4] = 1 / 2 ∧
    avgAbsReturnSpec [-1, 2, 4] = some 1 ∧
    ((1 : ℚ) / 2 ≠ 1) := by
  refine ⟨by decide, by decide, by decide⟩

/-- Claim C4 (amended): `avg_abs_return` sums `|close[i] − close[i−1]| /
close[i−1]` over only the pairs whose prior close is positive, but divides by
`length − 1`, the count of all consecutive pairs; with fewer than two
elements it returns 0 (not an insufficient-data marker), and with no valid
pair it likewise returns 0. -/
theorem avg_abs_return_sum_over_all_pairs (values : List ℚ)
    (h2 : 2 ≤ values.length) :
    avg_abs_return values
      = ((values.zip values.tail).map
          (fun pq => if pq.1 ≤ 0 then 0 else |(pq.2 - pq.1) / pq.1|)).sum
        / ((values.length : ℚ) - 1) := by
  unfold avg_abs_return
  rw [if_neg (by omega)]
  have h := range_pair_sum (fun a b => if a ≤ 0 then 0 else |(b - a) / a|) values
  dsimp only
  rw [h]

/-- Witness for the amended C4 on a concrete series. -/
theorem avg_abs_return_sum_over_all_pairs_witness :
    avg_abs_return [-1, 2, 4]
      = ((([-1, 2, 4] : List ℚ).zip ([-1, 2, 4] : List ℚ).tail).map
          (fun pq => if pq.1 ≤ 0 then 0 else |(pq.2 - pq.1) / pq.1|)).sum
        / ((([-1, 2, 4] : List ℚ).length : ℚ) - 1) :=
  avg_abs_return_sum_over_all_pairs [-1, 2, 4] (by decide)

/-- Claim C5: within a single day, `trading_paused_for_today` is a one-way
latch: a same-day `update_daily_state` keeps it true once true; it becomes
true on any same-day update whose drawdown against the tracked peak
`max(equityPeakToday, equity)` is at least `MAX_DAILY_DRAWDOWN` (a
non-positive peak is treated as no drawdown, so the positivity hypothesis is
required); entries and exits never change it; and concretely, with peak 1000
and limit 0.05, an update at equity 940 sets it true while an update at
equity 960 leaves it false. -/
theorem drawdown_pause_latch :
    (∀ (s : BotState) (d : ℤ) (lp : Option ℚ), d = s.today_date →
      s.trading_paused_for_today = true →
      (update_daily_state s d lp).trading_paused_for_today = true) ∧
    (∀ (s : BotState) (d : ℤ) (lp : Option ℚ), d = s.today_date →
      0 < max s.equity_peak_today (current_equity s (some (orZero lp))) →
      MAX_DAILY_DRAWDOWN ≤
        (max s.equity_peak_today (current_equity s (some (orZero lp)))
            - current_equity s (some (orZero lp)))
          / max s.equity_peak_today (current_equity s (some (orZero lp))) →
      (update_daily_state s d lp).trading_paused_for_today = true) ∧
    (∀ (s : BotState) (m : String) (p : ℚ),
      (enter_position s m p).trading_paused_for_today
        = s.trading_paused_for_today) ∧
    (∀ (s : BotState) (r : String) (p : ℚ),
      (exit_position s r p).trading_paused_for_today
        = s.trading_paused_for_today) ∧
    (update_daily_state ddState940 0 (some 0)).trading_paused_for_today
      = true ∧
    (update_daily_state ddState960 0 (some 0)).trading_paused_for_today
      = false := by
  refine ⟨?_, ?_, ?_, ?_, by decide, by decide⟩
  · intro s d lp hd hp
    unfold update_daily_state
    dsimp only
    rw [if_neg (not_not_intro hd)]
    split_ifs <;> simp_all
  · intro s d lp hd hpk hdd
    unfold update_daily_state
    dsimp only
    rw [if_neg (not_not_intro hd)]
    rcases lt_or_le s.equity_peak_today (current_equity s (some (orZero lp)))
      with hlt | hle
    · rw [max_eq_right hlt.le] at hdd
      rw [sub_self, zero_div] at hdd
      exact absurd hdd (by norm_num [MAX_DAILY_DRAWDOWN])
    · rw [max_eq_left hle] at hpk hdd
      rw [if_neg (not_lt.mpr hle)]
      rw [if_neg (not_le.mpr hpk)]
      cases hb : s.trading_paused_for_today with
      | true => split_ifs <;> simp_all
      | false =>
        rw [if_pos ⟨hdd, rfl⟩]
  · intro s m p
    exact (enter_position_preserves s m p).2.1
  · intro s r p
    exact (exit_position_preserves s r p).2.1

/-- Witness for C5 at concrete inputs: a same-day update keeps an existing
pause, and the 940-equity update triggers the latch via the drawdown bound. -/
theorem drawdown_pause_latch_witness :
    (update_daily_state pausedState 0 (some 0)).trading_paused_for_today
      = true ∧
    (update_daily_state ddState940 0 (some 0)).trading_paused_for_today
      = true :=
  ⟨drawdown_pause_latch.1 pausedState 0 (some 0) (by decide) (by decide),
   drawdown_pause_latch.2.1 ddState940 0 (some 0) (by decide)
     (by norm_num [ddState940, current_equity, orZero])
     (by norm_num [ddState940, current_equity, orZero, MAX_DAILY_DRAWDOWN])⟩

/-- Claim C6: entering with cash 100, size fraction 0.3 and price 50000
spends exactly 30.00, buys exactly 0.00060000 coins and leaves 70.00 in
cash; selling at 50500 brings proceeds exactly 30.30, realized P/L
(rounded proceeds minus amount times entry price) exactly +0.30, and cash
exactly 100.30. -/
theorem enter_exit_concrete_numbers :
    startState.usd_balance
        - (enter_position startState mBTC 50000).usd_balance = 30 ∧
    (enter_position startState mBTC 50000).coin_balance = 6 / 10000 ∧
    (enter_position startState mBTC 50000).usd_balance = 70 ∧
    (exit_position (enter_position startState mBTC 50000) reasonTP
        50500).usd_balance
      - (enter_position startState mBTC 50000).usd_balance = 303 / 10 ∧
    quantize 2 ((enter_position startState mBTC 50000).coin_balance * 50500)
      - (enter_position startState mBTC 50000).coin_balance * 50000
      = 3 / 10 ∧
    (exit_position (enter_position startState mBTC 50000) reasonTP
        50500).usd_balance = 1003 / 10 := by
  refine ⟨by decide, by decide, by decide, by decide, by decide, by decide⟩

/-- Claim C7: for a held position, an unavailable latest price leaves the
position open and the whole account state unchanged; with a price `p`
available and `changePct = (p − entry) / entry`, the loop exits with
TAKE_PROFIT exactly when `changePct ≥ TAKE_PROFIT_PCT`, exits with
STOP_LOSS exactly when `changePct < TAKE_PROFIT_PCT` and `changePct ≤
−STOP_LOSS_PCT` (stop-loss stored as a positive magnitude), and otherwise
holds. -/
theorem check_exits_thresholds :
    (∀ ep : ℚ, check_position ep none = ExitDecision.hold) ∧
    (∀ ep p : ℚ,
      (check_position ep (some p) = ExitDecision.takeProfit ↔
        TAKE_PROFIT_PCT ≤ (p - ep) / ep) ∧
      (check_position ep (some p) = ExitDecision.stopLoss ↔
        ((p - ep) / ep < TAKE_PROFIT_PCT ∧ (p - ep) / ep ≤ -STOP_LOSS_PCT)) ∧
      (check_position ep (some p) = ExitDecision.hold ↔
        ((p - ep) / ep < TAKE_PROFIT_PCT ∧ -STOP_LOSS_PCT < (p - ep) / ep))) ∧
    (∀ (s : BotState) (lp : ℚ) (env : Env),
      positionHeld (update_daily_state s env.today1 (some lp)) = true →
      env.latest_price = none →
      (cycleStep s lp env).1.current_market = s.current_market ∧
      (cycleStep s lp env).1.entry_price = s.entry_price ∧
      (cycleStep s lp env).1.coin_balance = s.coin_balance ∧
      (cycleStep s lp env).1.usd_balance = s.usd_balance ∧
      (cycleStep s lp env).2 = lp) := by
  refine ⟨fun ep => rfl, ?_, ?_⟩
  · intro ep p
    unfold check_position
    dsimp only
    refine ⟨?_, ?_, ?_⟩ <;> split_ifs <;> simp_all [not_le, not_lt]
  · intro s lp env hpos hnone
    have pres := update_daily_state_preserves s env.today1 (some lp)
    unfold cycleStep
    dsimp only
    rw [if_pos hpos, hnone]
    exact ⟨pres.2.2.1, pres.2.2.2.1, pres.2.1, pres.1, rfl⟩

/-- Witness for C7: the unavailable-price case at entry price 100, and a
concrete held cycle whose latest-price fetch fails. -/
theorem check_exits_thresholds_witness :
    check_position 100 none = ExitDecision.hold ∧
    (cycleStep posState 0 noPriceEnv).1.current_market
      = posState.current_market :=
  ⟨check_exits_thresholds.1 100,
   (check_exits_thresholds.2.2 posState 0 noPriceEnv (by decide) (by decide)).1⟩

theorem score_closes_eq_filters (cs : List ℚ) :
    score_closes cs
      = (match score_filters cs with
         | none => -999
         | some (t, r, v) => score_formula t r v) := by
  unfold score_closes score_filters
  by_cases hcs : cs = []
  · rw [if_pos hcs, if_pos hcs]
  · rw [if_neg hcs, if_neg hcs]
    dsimp only
    cases h9 : sma cs 9 <;> cases h21 : sma cs 21 <;> cases hr : rsi cs 14 <;>
      dsimp only <;> try rfl
    split_ifs <;> rfl

theorem score_filters_bounds (cs : List ℚ) (t r v : ℚ)
    (h : score_filters cs = some (t, r, v)) :
    MIN_TREND_STRENGTH ≤ t ∧ RSI_BUY_MIN ≤ r ∧ r ≤ RSI_BUY_MAX ∧
    MIN_VOLATILITY ≤ v ∧ v ≤ MAX_VOLATILITY := by
  unfold score_filters at h
  by_cases hcs : cs = []
  · rw [if_pos hcs] at h
    simp at h
  · rw [if_neg hcs] at h
    dsimp only at h
    rcases h9 : sma cs 9 with _ | sm <;> rw [h9] at h <;>
      rcases h21 : sma cs 21 with _ | lm <;> rw [h21] at h <;>
      rcases hrs : rsi cs 14 with _ | r0 <;> rw [hrs] at h <;>
      dsimp only at h <;> try simp at h
    obtain ⟨h1, h2, h3, ht, hr, hv⟩ := h
    subst ht hr hv
    exact ⟨h1, h2.1, h2.2, h3.1, h3.2⟩

theorem score_formula_lower (t r v : ℚ) (ht : MIN_TREND_STRENGTH ≤ t)
    (hr1 : RSI_BUY_MIN ≤ r) (hr2 : r ≤ RSI_BUY_MAX)
    (hv1 : MIN_VOLATILITY ≤ v) (hv2 : v ≤ MAX_VOLATILITY) :
    (-999 : ℚ) < score_formula t r v := by
  unfold score_formula
  dsimp only
  simp only [MIN_TREND_STRENGTH, RSI_BUY_MIN, RSI_BUY_MAX, MIN_VOLATILITY,
    MAX_VOLATILITY] at *
  have h1 : |r - (40 + 65) / 2| ≤ 25 / 2 :=
    abs_le.mpr ⟨by linarith, by linarith⟩
  have h2 : |v - (2 / 1000 + 30 / 1000) / 2| ≤ 14 / 1000 :=
    abs_le.mpr ⟨by linarith, by linarith⟩
  linarith

/-- Claim C8: for any two accepted series agreeing on RSI and volatility,
strictly greater trend strength gives a strictly greater score, and the
score of every rejected series (the −999 sentinel) is strictly below the
score of every accepted series. -/
theorem scoring_monotone_and_rejection_below :
    (∀ (cs1 cs2 : List ℚ) (t1 t2 r v : ℚ),
      score_filters cs1 = some (t1, r, v) →
      score_filters cs2 = some (t2, r, v) →
      t2 < t1 → score_closes cs2 < score_closes cs1) ∧
    (∀ cs1 cs2 : List ℚ,
      (score_filters cs1).isSome = true → score_filters cs2 = none →
      score_closes cs2 < score_closes cs1) := by
  constructor
  · intro cs1 cs2 t1 t2 r v h1 h2 hlt
    rw [score_closes_eq_filters cs1, score_closes_eq_filters cs2, h1, h2]
    unfold score_formula
    dsimp only
    linarith
  · intro cs1 cs2 hs h2
    obtain ⟨⟨t, r, v⟩, h1⟩ := Option.isSome_iff_exists.mp hs
    rw [score_closes_eq_filters cs1, score_closes_eq_filters cs2, h1, h2]
    obtain ⟨ht, hr1, hr2, hv1, hv2⟩ := score_filters_bounds cs1 t r v h1
    exact score_formula_lower t r v ht hr1 hr2 hv1 hv2

/-- Witness for C8: the two concrete accepted series (equal RSI 50 and equal
volatility, different trend) compare by trend, and an empty (rejected)
series scores below the accepted one. -/
theorem scoring_monotone_and_rejection_below_witness :
    score_closes cs2ex < score_closes cs1ex ∧
    score_closes ([] : List ℚ) < score_closes cs1ex :=
  ⟨scoring_monotone_and_rejection_below.1 cs1ex cs2ex (1844 / 67533)
      (589 / 22511) 50 (173 / 30300) (by decide) (by decide) (by decide),
   scoring_monotone_and_rejection_below.2 cs1ex [] (by decide) (by decide)⟩

/-- Claim C9: one loop cycle never opens a new position when — at the risk
state consulted by the loop — a position is already held (the open-position
count equals the capacity of 1), or the drawdown pause is set, or the losing
streak has reached `MAX_LOSING_STREAK`; `trade_count` is incremented exactly
by entries, so it is unchanged in every such cycle even when the cycle's
best candidate is attractive. -/
theorem no_entry_when_blocked (s : BotState) (lp : ℚ) (env : Env)
    (h : positionHeld (update_daily_state s env.today1 (some lp)) = true
      ∨ (update_daily_state (update_daily_state s env.today1 (some lp))
          env.today2 (some lp)).trading_paused_for_today = true
      ∨ MAX_LOSING_STREAK ≤
          (update_daily_state (update_daily_state s env.today1 (some lp))
            env.today2 (some lp)).losing_streak) :
    (cycleStep s lp env).1.trade_count = s.trade_count := by
  have p1 := update_daily_state_preserves s env.today1 (some lp)
  have p2 := update_daily_state_preserves
    (update_daily_state s env.today1 (some lp)) env.today2 (some lp)
  unfold cycleStep
  dsimp only
  set s0 := update_daily_state s env.today1 (some lp) with hs0
  set s1 := update_daily_state s0 env.today2 (some lp) with hs1
  by_cases hpos : positionHeld s0 = true
  · rw [if_pos hpos]
    cases hlp : env.latest_price with
    | none => exact p1.2.2.2.2.1
    | some p =>
      dsimp only
      cases hcp : check_position (s0.entry_price.getD 0) (some p) with
      | hold => exact p1.2.2.2.2.1
      | takeProfit =>
        exact ((exit_position_preserves s0 reasonTP p).1).trans p1.2.2.2.2.1
      | stopLoss =>
        exact ((exit_position_preserves s0 reasonSL p).1).trans p1.2.2.2.2.1
  · rw [if_neg hpos]
    rcases h with h1 | h2 | h3
    · exact absurd h1 hpos
    · rw [if_pos h2]
      exact (p2.2.2.2.2.1).trans p1.2.2.2.2.1
    · by_cases hp : s1.trading_paused_for_today = true
      · rw [if_pos hp]
        exact (p2.2.2.2.2.1).trans p1.2.2.2.2.1
      · rw [if_neg hp, if_pos h3]
        exact (p2.2.2.2.2.1).trans p1.2.2.2.2.1

/-- Witness for C9: a paused flat state with an attractive candidate on
offer still performs no entry. -/
theorem no_entry_when_blocked_witness :
    (cycleStep pausedState 0 richEnv).1.trade_count = 5 :=
  no_entry_when_blocked pausedState 0 richEnv (Or.inr (Or.inl (by decide)))

theorem enter_usd_nonneg (s : BotState) (m : String) (p : ℚ)
    (h : 0 ≤ s.usd_balance) : 0 ≤ (enter_position s m p).usd_balance := by
  unfold enter_position
  dsimp only
  split_ifs with h1 h2 h3
  · exact h
  · exact h
  · exact h
  · have hq := quantize_le 2 (s.usd_balance * POSITION_SIZE_FRACTION)
    have hx : s.usd_balance * POSITION_SIZE_FRACTION
        = s.usd_balance * (30 / 100) := by
      rw [POSITION_SIZE_FRACTION]
    rw [hx] at hq h2 ⊢
    rw [not_lt] at h2
    norm_num at hq
    dsimp only
    linarith

theorem exit_usd_nonneg (s : BotState) (r : String) (p : ℚ)
    (h : 0 ≤ s.usd_balance) (hp : 0 ≤ p) :
    0 ≤ (exit_position s r p).usd_balance := by
  unfold exit_position
  rcases s.current_market with _ | m <;> rcases he : s.entry_price with _ | ep <;>
    dsimp only <;> try exact h
  by_cases hc : s.coin_balance ≤ 0
  · rw [if_pos hc]
    exact h
  · rw [if_neg hc]
    dsimp only
    have hq : 0 ≤ quantize 2 (s.coin_balance * p) :=
      quantize_nonneg 2 _ (mul_nonneg (le_of_lt (not_le.mp hc)) hp)
    linarith

theorem applyOp_usd_nonneg (s : BotState) (op : TradeOp)
    (h : 0 ≤ s.usd_balance) (hop : opPriceOk op) :
    0 ≤ (applyOp s op).usd_balance := by
  cases op with
  | enter m p => exact enter_usd_nonneg s m p h
  | close r p => exact exit_usd_nonneg s r p h hop

/-- Claim C10: entry changes the cash balance by exactly the 2-decimal
rounded spend amount (or not at all when the entry is refused), exit changes
it by exactly the 2-decimal rounded proceeds (or not at all when there is
nothing to sell), and along every sequence of entries and exits at
non-negative exit prices a non-negative cash balance stays non-negative. -/
theorem cash_never_negative :
    (∀ (s : BotState) (m : String) (p : ℚ),
      (enter_position s m p).usd_balance = s.usd_balance ∨
      (enter_position s m p).usd_balance
        = s.usd_balance - quantize 2 (s.usd_balance * POSITION_SIZE_FRACTION)) ∧
    (∀ (s : BotState) (r : String) (p : ℚ),
      (exit_position s r p).usd_balance = s.usd_balance ∨
      (exit_position s r p).usd_balance
        = s.usd_balance + quantize 2 (s.coin_balance * p)) ∧
    (∀ (ops : List TradeOp) (s : BotState), 0 ≤ s.usd_balance →
      (∀ op ∈ ops, opPriceOk op) →
      0 ≤ (ops.foldl applyOp s).usd_balance) := by
  refine ⟨?_, ?_, ?_⟩
  · intro s m p
    unfold enter_position
    dsimp only
    split_ifs <;> simp
  · intro s r p
    unfold exit_position
    rcases s.current_market with _ | m <;> rcases s.entry_price with _ | ep <;>
      dsimp only <;> try exact Or.inl rfl
    split_ifs <;> simp
  · intro ops
    induction ops with
    | nil => intro s h _; exact h
    | cons op rest ih =>
      intro s h hops
      rw [List.foldl_cons]
      exact ih (applyOp s op)
        (applyOp_usd_nonneg s op h (hops op (List.mem_cons_self op rest)))
        (fun o ho => hops o (List.mem_cons_of_mem op ho))

/-- Witness for C10: the concrete enter-then-exit sequence from the starting
balance keeps the cash balance non-negative. -/
theorem cash_never_negative_witness :
    0 ≤ (([TradeOp.enter mBTC 50000, TradeOp.close reasonTP 50500].foldl
      applyOp startState)).usd_balance :=
  cash_never_negative.2.2 [TradeOp.enter mBTC 50000, TradeOp.close reasonTP 50500]
    startState (by decide) (by decide)

end CryptoBot
